import Mathlib

/-!
Shallow embedding of the easing catalog in `src/lib.rs` over the reals.
Each Rust function `fn f(t: f64) -> f64` becomes a function `ℝ → ℝ`,
translated literally: `f64` arithmetic becomes real arithmetic,
`f64::sin`, `f64::cos`, `f64::sqrt` become `Real.sin`, `Real.cos`,
`Real.sqrt`, and `2.0f64.powf e` becomes the real power `(2 : ℝ) ^ e`
(`Real.rpow`).  The piecewise `*_in_out` functions are split into a
named low branch and high branch so that the two branch expressions can
be compared at the midpoint; the function itself selects between them
with the same guard as the source.
-/

namespace Easings

noncomputable section

def linear (t : ℝ) : ℝ := t

def quadratic_in (t : ℝ) : ℝ := t * t

def quadratic_out (t : ℝ) : ℝ := -(t * (t - 2))

def quadratic_in_out_lo (t : ℝ) : ℝ := 2 * t * t

def quadratic_in_out_hi (t : ℝ) : ℝ := (-2 * t * t) + (4 * t) - 1

def quadratic_in_out (t : ℝ) : ℝ :=
  if t < 0.5 then quadratic_in_out_lo t else quadratic_in_out_hi t

def cubic_in (t : ℝ) : ℝ := t * t * t

def cubic_out (t : ℝ) : ℝ := (t - 1) * (t - 1) * (t - 1) + 1

def cubic_in_out_lo (t : ℝ) : ℝ := 4 * t * t * t

def cubic_in_out_hi (t : ℝ) : ℝ :=
  0.5 * ((2 * t) - 2) * ((2 * t) - 2) * ((2 * t) - 2) + 1

def cubic_in_out (t : ℝ) : ℝ :=
  if t < 0.5 then cubic_in_out_lo t else cubic_in_out_hi t

def quartic_in (t : ℝ) : ℝ := t * t * t * t

def quartic_out (t : ℝ) : ℝ := (t - 1) * (t - 1) * (t - 1) + (1 - t) + 1

def quartic_in_out_lo (t : ℝ) : ℝ := 8 * t * t * t * t

def quartic_in_out_hi (t : ℝ) : ℝ :=
  -8 * (t - 1) * (t - 1) * (t - 1) * (t - 1) + 1

def quartic_in_out (t : ℝ) : ℝ :=
  if t < 0.5 then quartic_in_out_lo t else quartic_in_out_hi t

def quintic_in (t : ℝ) : ℝ := t * t * t * t * t

def quintic_out (t : ℝ) : ℝ :=
  (t - 1) * (t - 1) * (t - 1) * (t - 1) * (t - 1) + 1

def quintic_in_out_lo (t : ℝ) : ℝ := 16 * t * t * t * t * t

def quintic_in_out_hi (t : ℝ) : ℝ :=
  0.5 * ((2 * t) - 2) * ((2 * t) - 2) * ((2 * t) - 2) * ((2 * t) - 2) * ((2 * t) - 2) + 1

def quintic_in_out (t : ℝ) : ℝ :=
  if t < 0.5 then quintic_in_out_lo t else quintic_in_out_hi t

def sin_in (t : ℝ) : ℝ := Real.sin ((t - 1) * 2 * Real.pi) + 1

def sin_out (t : ℝ) : ℝ := Real.sin (t * 2 * Real.pi)

def sin_in_out (t : ℝ) : ℝ := 0.5 * (1 - Real.cos (t * Real.pi))

def circular_in (t : ℝ) : ℝ := 1 - Real.sqrt (1 - t * t)

def circular_out (t : ℝ) : ℝ := Real.sqrt (2 - t) * t

def circular_in_out_lo (t : ℝ) : ℝ := 0.5 * (1 - Real.sqrt (1 - 4 * t * t))

def circular_in_out_hi (t : ℝ) : ℝ :=
  0.5 * (Real.sqrt (-(2 * t - 3) * (2 * t - 1)) + 1)

def circular_in_out (t : ℝ) : ℝ :=
  if t < 0.5 then circular_in_out_lo t else circular_in_out_hi t

def exponential_in (t : ℝ) : ℝ :=
  if t = 0 then t else (2 : ℝ) ^ (10 * (t - 1))

def exponential_out (t : ℝ) : ℝ :=
  if t = 1 then t else 1 - (2 : ℝ) ^ (-10 * t)

def exponential_in_out_lo (t : ℝ) : ℝ := 0.5 * (2 : ℝ) ^ (20 * t - 10)

def exponential_in_out_hi (t : ℝ) : ℝ := 0.5 * (2 : ℝ) ^ (-20 * t + 10) + 1

def exponential_in_out (t : ℝ) : ℝ :=
  if t = 0 ∨ t = 1 then t
  else if t < 0.5 then exponential_in_out_lo t else exponential_in_out_hi t

def elastic_in (t : ℝ) : ℝ :=
  Real.sin (13 * 2 * Real.pi * t) * (2 : ℝ) ^ (10 * (t - 1))

def elastic_out (t : ℝ) : ℝ :=
  Real.sin (-13 * 2 * Real.pi * (t + 1)) * (2 : ℝ) ^ (10 * (t - 1))

def elastic_in_out_lo (t : ℝ) : ℝ :=
  0.5 * (13 * Real.pi * 2 * 2 * t) * (2 : ℝ) ^ (10 * (2 * t - 1))

def elastic_in_out_hi (t : ℝ) : ℝ :=
  0.5 * (Real.sin (-13 * Real.pi * 2 * (2 * t - 1) + 1) * (2 : ℝ) ^ (-10 * (2 * t - 1)) + 2)

def elastic_in_out (t : ℝ) : ℝ :=
  if t < 0.5 then elastic_in_out_lo t else elastic_in_out_hi t

def back_in (t : ℝ) : ℝ := t * t * t - t * Real.sin (t * Real.pi)

def back_out (t : ℝ) : ℝ :=
  1 - ((1 - t) * (1 - t) * (1 - t) - (1 - t) * Real.sin ((1 - t) * Real.pi))

def back_in_out_lo (t : ℝ) : ℝ :=
  0.5 * ((2 * t) * (2 * t) * (2 * t) - (2 * t) * Real.sin ((2 * t) * Real.pi))

def back_in_out_hi (t : ℝ) : ℝ :=
  0.5 * (1 - ((1 - (2 * t - 1)) * (1 - (2 * t - 1)) * (1 - (2 * t - 1)) -
    (1 - (2 * t - 1)) * Real.sin ((1 - (2 * t - 1)) * Real.pi))) + 0.5

def back_in_out (t : ℝ) : ℝ :=
  if t < 0.5 then back_in_out_lo t else back_in_out_hi t

def bounce_out_seg1 (t : ℝ) : ℝ := 121 / 16 * t * t

def bounce_out_seg2 (t : ℝ) : ℝ := 363 / 40 * t * t + (-99) / 10 * t + 17 / 5

def bounce_out_seg3 (t : ℝ) : ℝ :=
  4356 / 361 * t * t + (-35442) / 1805 * t + 16061 / 1805

def bounce_out_seg4 (t : ℝ) : ℝ :=
  54 / 5 * t * t + (-513) / 25 * t + 268 / 25

def bounce_out (t : ℝ) : ℝ :=
  if t < 4 / 11 then bounce_out_seg1 t
  else if t < 8 / 11 then bounce_out_seg2 t
  else if t < 9 / 10 then bounce_out_seg3 t
  else bounce_out_seg4 t

def bounce_in (t : ℝ) : ℝ := 1 - bounce_out (1 - t)

def bounce_in_out_lo (t : ℝ) : ℝ := 0.5 * bounce_in (t * 2)

def bounce_in_out_hi (t : ℝ) : ℝ := 0.5 * bounce_out (t * 2 - 1) + 0.5

def bounce_in_out (t : ℝ) : ℝ :=
  if t < 0.5 then bounce_in_out_lo t else bounce_in_out_hi t

/-- The simplified quartic-out formula stated by the spec, `1 - (t - 1)^4`,
to be compared with the literal `quartic_out` from the source. -/
def quartic_out_spec (t : ℝ) : ℝ := 1 - (t - 1) ^ 4

theorem bounce_out_zero : bounce_out 0 = 0 := by
  rw [bounce_out, if_pos (by norm_num : (0 : ℝ) < 4 / 11)]
  norm_num [bounce_out_seg1]

/-- Claim C5 is a code bug: the literal `quartic_out` formula
`f³ + (1 - t) + 1` with `f = t - 1` is not equal to the simplified form
`1 - (t - 1)⁴`; at `t = 0` the literal formula yields `1` while the
simplified form yields `0`. -/
theorem quartic_out_literal_vs_simplified :
    quartic_out 0 = 1 ∧ quartic_out_spec 0 = 0 := by
  constructor <;> norm_num [quartic_out, quartic_out_spec]

/-- Claim C6: the four quadratic segments of `bounce_out` agree exactly at
each breakpoint `4/11`, `8/11` and `9/10`, so the piecewise parabola is
continuous there (each breakpoint value is exactly `1`). -/
theorem bounce_out_segment_continuity :
    bounce_out_seg1 (4 / 11) = bounce_out_seg2 (4 / 11) ∧
    bounce_out_seg2 (8 / 11) = bounce_out_seg3 (8 / 11) ∧
    bounce_out_seg3 (9 / 10) = bounce_out_seg4 (9 / 10) := by
  refine ⟨?_, ?_, ?_⟩ <;>
    norm_num [bounce_out_seg1, bounce_out_seg2, bounce_out_seg3, bounce_out_seg4]

/-- Claim C1 is a code bug: the boundary identities `f 0 = 0` and
`f 1 = 1` fail for three catalog functions.  `quartic_out 0 = 1` (the
literal formula adds `(1 - t)` where the reference multiplies by it),
`sin_in 0 = sin (-2π) + 1 = 1`, and `sin_out 1 = sin (2π) = 0` (the sine
pair uses a full cycle `2π` where a quarter cycle `π/2` is intended). -/
theorem quartic_sin_boundary_violation :
    quartic_out 0 = 1 ∧ sin_in 0 = 1 ∧ sin_out 1 = 0 := by
  refine ⟨by norm_num [quartic_out], ?_, ?_⟩
  · rw [sin_in, show ((0 : ℝ) - 1) * 2 * Real.pi = -(2 * Real.pi) by ring,
      Real.sin_neg, Real.sin_two_pi]
    norm_num
  · rw [sin_out, show (1 : ℝ) * 2 * Real.pi = 2 * Real.pi by ring,
      Real.sin_two_pi]

/-- Claim C2 is a code bug: at the midpoint `t = 0.5` the two branch
expressions agree for the quadratic, cubic, quartic, quintic, circular,
back and bounce `*_in_out` functions, but they differ for
`exponential_in_out` (low branch `0.5`, high branch `1.5`; its high
branch has `0.5 * ...` where the doc comment specifies `-(1/2) * ...`)
and for `elastic_in_out` (low branch `13π`, high branch
`0.5 * (sin 1 + 2)`; its low branch omits the sine of the doc comment). -/
theorem in_out_midpoint_continuity_audit :
    quadratic_in_out_lo 0.5 = quadratic_in_out_hi 0.5 ∧
    cubic_in_out_lo 0.5 = cubic_in_out_hi 0.5 ∧
    quartic_in_out_lo 0.5 = quartic_in_out_hi 0.5 ∧
    quintic_in_out_lo 0.5 = quintic_in_out_hi 0.5 ∧
    circular_in_out_lo 0.5 = circular_in_out_hi 0.5 ∧
    back_in_out_lo 0.5 = back_in_out_hi 0.5 ∧
    bounce_in_out_lo 0.5 = bounce_in_out_hi 0.5 ∧
    exponential_in_out_lo 0.5 ≠ exponential_in_out_hi 0.5 ∧
    elastic_in_out_lo 0.5 ≠ elastic_in_out_hi 0.5 := by
  refine ⟨?_, ?_, ?_, ?_, ?_, ?_, ?_, ?_, ?_⟩
  · norm_num [quadratic_in_out_lo, quadratic_in_out_hi]
  · norm_num [cubic_in_out_lo, cubic_in_out_hi]
  · norm_num [quartic_in_out_lo, quartic_in_out_hi]
  · norm_num [quintic_in_out_lo, quintic_in_out_hi]
  · norm_num [circular_in_out_lo, circular_in_out_hi, Real.sqrt_zero]
  · norm_num [back_in_out_lo, back_in_out_hi, Real.sin_pi]
  · norm_num [bounce_in_out_lo, bounce_in_out_hi, bounce_in, bounce_out,
      bounce_out_seg1]
  · norm_num [exponential_in_out_lo, exponential_in_out_hi, Real.rpow_zero]
  · have hlo : elastic_in_out_lo 0.5 = 13 * Real.pi := by
      rw [elastic_in_out_lo,
        show 10 * (2 * (0.5 : ℝ) - 1) = 0 by norm_num, Real.rpow_zero]
      ring
    have hhi : elastic_in_out_hi 0.5 = 0.5 * (Real.sin 1 + 2) := by
      rw [elastic_in_out_hi,
        show -13 * Real.pi * 2 * (2 * (0.5 : ℝ) - 1) + 1 = 1 by ring_nf,
        show -10 * (2 * (0.5 : ℝ) - 1) = 0 by norm_num, Real.rpow_zero,
        mul_one]
    intro h
    rw [hlo, hhi] at h
    have h1 := Real.sin_le_one 1
    have h2 := Real.pi_gt_three
    linarith

/-- Claim C3 is a code bug: monotonicity on `[0, 1]` fails for
`quartic_out` (which decreases from `11/8` at `t = 1/2` down to `1` at
`t = 1`) and for `sin_out` (which reaches `1` at `t = 1/4` and falls
back to `0` at `t = 1/2`); the remaining listed functions are not
refuted here. -/
theorem monotonic_claim_violation :
    ((1 : ℝ) / 2 ≤ 1 ∧ quartic_out 1 < quartic_out (1 / 2)) ∧
    ((1 : ℝ) / 4 ≤ 1 / 2 ∧ sin_out (1 / 2) < sin_out (1 / 4)) := by
  refine ⟨⟨by norm_num, by norm_num [quartic_out]⟩, by norm_num, ?_⟩
  rw [sin_out, sin_out, show (1 / 2 : ℝ) * 2 * Real.pi = Real.pi by ring,
    show (1 / 4 : ℝ) * 2 * Real.pi = Real.pi / 2 by ring,
    Real.sin_pi, Real.sin_pi_div_two]
  norm_num

/-- Claim C4: the exponential family short-circuits at the boundaries by
an exact equality test, so `exponential_in 0 = 0`, `exponential_out 1 = 1`,
`exponential_in_out` returns `t` unchanged at `t = 0` and `t = 1`, and the
other boundary values `exponential_in 1 = 1` and `exponential_out 0 = 0`
hold exactly as well. -/
theorem exponential_boundary_short_circuit :
    exponential_in 0 = 0 ∧ exponential_out 1 = 1 ∧
    exponential_in_out 0 = 0 ∧ exponential_in_out 1 = 1 ∧
    exponential_in 1 = 1 ∧ exponential_out 0 = 0 := by
  refine ⟨?_, ?_, ?_, ?_, ?_, ?_⟩
  · rw [exponential_in, if_pos rfl]
  · rw [exponential_out, if_pos rfl]
  · rw [exponential_in_out, if_pos (Or.inl rfl)]
  · rw [exponential_in_out, if_pos (Or.inr rfl)]
  · rw [exponential_in, if_neg (by norm_num)]
    rw [show 10 * ((1 : ℝ) - 1) = 0 by norm_num, Real.rpow_zero]
  · rw [exponential_out, if_neg (by norm_num)]
    rw [show (-10 : ℝ) * 0 = 0 by norm_num, Real.rpow_zero]
    norm_num

/-- Claim C9: the concrete point values hold: `linear 0.5 = 0.5`,
`quadratic_in 0.5 = 0.25`, `quadratic_out 0.5 = 0.75`,
`cubic_in_out 0.25 = 0.0625`, and `bounce_out 0.5` takes the second
segment (`4/11 ≤ 0.5 < 8/11`) and equals
`363/40 * 0.25 - 99/10 * 0.5 + 17/5`. -/
theorem concrete_point_values :
    linear 0.5 = 0.5 ∧ quadratic_in 0.5 = 0.25 ∧
    quadratic_out 0.5 = 0.75 ∧ cubic_in_out 0.25 = 0.0625 ∧
    ((4 : ℝ) / 11 ≤ 0.5 ∧ (0.5 : ℝ) < 8 / 11) ∧
    bounce_out 0.5 = 363 / 40 * 0.25 - 99 / 10 * 0.5 + 17 / 5 := by
  refine ⟨rfl, by norm_num [quadratic_in], by norm_num [quadratic_out],
    ?_, ⟨by norm_num, by norm_num⟩, ?_⟩
  · rw [cubic_in_out, if_pos (by norm_num : (0.25 : ℝ) < 0.5)]
    norm_num [cubic_in_out_lo]
  · rw [bounce_out, if_neg (by norm_num : ¬(0.5 : ℝ) < 4 / 11),
      if_pos (by norm_num : (0.5 : ℝ) < 8 / 11)]
    norm_num [bounce_out_seg2]

/-- Claim C10: for every `t` with `1/2 ≤ t < 1`, `exponential_in_out`
takes its high branch `0.5 * 2 ^ (-20 t + 10) + 1`, which is strictly
greater than `1`: the function leaves the nominal `[0, 1]` range on the
whole second half of its domain. -/
theorem exponential_in_out_overshoot (t : ℝ) (h1 : 1 / 2 ≤ t) (h2 : t < 1) :
    exponential_in_out t = 0.5 * (2 : ℝ) ^ (-20 * t + 10) + 1 ∧
      1 < exponential_in_out t := by
  have ht0 : ¬(t = 0 ∨ t = 1) := by
    rintro (rfl | rfl)
    · linarith
    · exact lt_irrefl (1 : ℝ) h2
  have hlt : ¬t < 0.5 := by
    push_neg
    norm_num
    linarith
  rw [exponential_in_out, if_neg ht0, if_neg hlt]
  refine ⟨rfl, ?_⟩
  have hp : (0 : ℝ) < (2 : ℝ) ^ (-20 * t + 10) :=
    Real.rpow_pos_of_pos (by norm_num) _
  rw [exponential_in_out_hi]
  linarith

/-- Witness for `exponential_in_out_overshoot` at `t = 1/2`. -/
theorem exponential_in_out_overshoot_witness :
    ((1 : ℝ) / 2 ≤ 1 / 2 ∧ (1 / 2 : ℝ) < 1) ∧
    (exponential_in_out (1 / 2) =
        0.5 * (2 : ℝ) ^ (-20 * (1 / 2 : ℝ) + 10) + 1 ∧
      1 < exponential_in_out (1 / 2)) :=
  ⟨⟨le_refl _, by norm_num⟩,
    exponential_in_out_overshoot (1 / 2) (le_refl _) (by norm_num)⟩

/-- Claim C8: for every `t` in `[0, 1]`,
`bounce_in t = 1 - bounce_out (1 - t)`; this holds definitionally since
`bounce_in` is implemented exactly as that expression. -/
theorem bounce_in_reflection (t : ℝ) (h0 : 0 ≤ t) (h1 : t ≤ 1) :
    bounce_in t = 1 - bounce_out (1 - t) := rfl

/-- Witness for `bounce_in_reflection` at `t = 1/2`. -/
theorem bounce_in_reflection_witness :
    (0 : ℝ) ≤ 1 / 2 ∧ (1 / 2 : ℝ) ≤ 1 ∧
      bounce_in (1 / 2) = 1 - bounce_out (1 - 1 / 2) :=
  ⟨by norm_num, by norm_num,
    bounce_in_reflection (1 / 2) (by norm_num) (by norm_num)⟩

end

end Easings
